import Mathlib

/-!
Shallow embedding of the core of the firstgen-quick-w2-proposal platform:
the calculation engine (`src/lib/calculator.ts`), the secret-hashing
utility (`supabase/functions/_shared/crypto.ts`), the access validator
(`supabase/functions/validate_case_access/index.ts`), link rotation
(`supabase/functions/regenerate_link/index.ts`) and the generation
idempotency guard of the Pipedrive webhook handler
(`supabase/functions/generate_case_from_pipedrive/index.ts`).

Timestamps are modelled as `Int` epoch milliseconds (JavaScript `Date`
comparisons coerce to epoch milliseconds).  Database rows are modelled as
Lean structures following the schema of
`supabase/migrations` (`cases`, `case_links`).
-/

namespace QuickW2

/-! ### Configuration constants

Two distinct constants modules exist in the repository and carry
different rates. -/

namespace SharedConstants

-- supabase/functions/_shared/constants.ts — imported by the edge
-- functions (generate_case_from_pipedrive, validate_case_access,
-- regenerate_link).

/-- Per-W2 multiplier for Total Tax Reduction (edge functions). -/
def RATE_TOTAL : Nat := 3357

/-- Per-W2 multiplier for Employer Net Savings (edge functions). -/
def RATE_ER : Nat := 1187

/-- Per-W2 multiplier for Employee Reduction (edge functions). -/
def RATE_EE : Nat := 2170

/-- Link expiry in days. -/
def LINK_EXPIRY_DAYS : Nat := 30

/-- Lock duration in minutes after too many failed attempts. -/
def LOCK_DURATION_MINUTES : Nat := 30

/-- Max passcode attempts before locking. -/
def MAX_ATTEMPTS : Nat := 10

/-- Idempotency window in seconds. -/
def IDEMPOTENCY_WINDOW_SECONDS : Nat := 60

end SharedConstants

namespace LibConstants

-- src/lib/constants.ts — imported by the Next.js app
-- (src/lib/calculator.ts and /api/generate).

/-- Per-W2 multiplier for Total Tax Reduction (Next.js lib). -/
def RATE_TOTAL : Nat := 3356

/-- Per-W2 multiplier for Employer Net Savings (Next.js lib). -/
def RATE_ER : Nat := 1186

/-- Per-W2 multiplier for Employee Reduction (Next.js lib). -/
def RATE_EE : Nat := 2170

/-- Link expiry in days. -/
def LINK_EXPIRY_DAYS : Nat := 30

end LibConstants

/-! ### Calculation engine -/

/-- Snapshot of the raw inputs and rates used for a calculation
(`calc_inputs` jsonb column). -/
structure CalcInputs where
  w2_count : Nat
  tax_year : Nat
  rate_total : Nat
  rate_er : Nat
  rate_ee : Nat
  deriving DecidableEq

/-- Structured output of the calculation engine
(`CalculationResult` in src/lib/calculator.ts).  The
`calc_explanation` presentation string is omitted: it is a deterministic
rendering of the same numbers and no verified property mentions it. -/
structure CalculationResult where
  calc_total : Nat
  calc_er : Nat
  calc_ee : Nat
  calc_inputs : CalcInputs
  deriving DecidableEq

/-- The function `calculateSavings` from src/lib/calculator.ts.  The ambient
`new Date().getFullYear()` is passed explicitly as `taxYear`. -/
def calculateSavings (w2Count : Nat) (taxYear : Nat) : CalculationResult :=
  { calc_total := w2Count * LibConstants.RATE_TOTAL
    calc_er := w2Count * LibConstants.RATE_ER
    calc_ee := w2Count * LibConstants.RATE_EE
    calc_inputs :=
      { w2_count := w2Count
        tax_year := taxYear
        rate_total := LibConstants.RATE_TOTAL
        rate_er := LibConstants.RATE_ER
        rate_ee := LibConstants.RATE_EE } }

/-- The inline calculation of the Pipedrive webhook handler
(generate_case_from_pipedrive/index.ts, Step 7), which uses the shared
edge-function constants. -/
def pipedriveCalc (w2Count : Nat) (taxYear : Nat) : CalculationResult :=
  { calc_total := w2Count * SharedConstants.RATE_TOTAL
    calc_er := w2Count * SharedConstants.RATE_ER
    calc_ee := w2Count * SharedConstants.RATE_EE
    calc_inputs :=
      { w2_count := w2Count
        tax_year := taxYear
        rate_total := SharedConstants.RATE_TOTAL
        rate_er := SharedConstants.RATE_ER
        rate_ee := SharedConstants.RATE_EE } }

/-! ### Secret-hashing utility

`hashWithPepper` (supabase/functions/_shared/crypto.ts and
src/lib/crypto.ts) hashes `pepper + value` with SHA-256 and hex-encodes
the 32-byte digest.  The platform digest primitive
(`crypto.subtle.digest("SHA-256", ...)` / node `createHash("sha256")`)
is modelled by a direct FIPS 180-4 SHA-256 implementation over byte
lists, with 32-bit words as `Nat` reduced mod `2 ^ 32`. -/

/-- Right rotation of a 32-bit word held in a `Nat`. -/
def rotr32 (n x : Nat) : Nat :=
  (x >>> n ||| x <<< (32 - n)) % 4294967296

/-- SHA-256 `Ch` function; 32-bit complement via xor with the mask. -/
def sha256Ch (x y z : Nat) : Nat :=
  (x &&& y) ^^^ ((x ^^^ 4294967295) &&& z)

/-- SHA-256 `Maj` function. -/
def sha256Maj (x y z : Nat) : Nat :=
  (x &&& y) ^^^ (x &&& z) ^^^ (y &&& z)

/-- SHA-256 big sigma-0. -/
def bigSigma0 (x : Nat) : Nat := rotr32 2 x ^^^ rotr32 13 x ^^^ rotr32 22 x

/-- SHA-256 big sigma-1. -/
def bigSigma1 (x : Nat) : Nat := rotr32 6 x ^^^ rotr32 11 x ^^^ rotr32 25 x

/-- SHA-256 small sigma-0. -/
def smallSigma0 (x : Nat) : Nat := rotr32 7 x ^^^ rotr32 18 x ^^^ (x >>> 3)

/-- SHA-256 small sigma-1. -/
def smallSigma1 (x : Nat) : Nat := rotr32 17 x ^^^ rotr32 19 x ^^^ (x >>> 10)

/-- The 64 SHA-256 round constants (FIPS 180-4 §4.2.2, written as
decimal numerals). -/
def sha256K : List Nat :=
  [1116352408, 1899447441, 3049323471, 3921009573,
   961987163, 1508970993, 2453635748, 2870763221,
   3624381080, 310598401, 607225278, 1426881987,
   1925078388, 2162078206, 2614888103, 3248222580,
   3835390401, 4022224774, 264347078, 604807628,
   770255983, 1249150122, 1555081692, 1996064986,
   2554220882, 2821834349, 2952996808, 3210313671,
   3336571891, 3584528711, 113926993, 338241895,
   666307205, 773529912, 1294757372, 1396182291,
   1695183700, 1986661051, 2177026350, 2456956037,
   2730485921, 2820302411, 3259730800, 3345764771,
   3516065817, 3600352804, 4094571909, 275423344,
   430227734, 506948616, 659060556, 883997877,
   958139571, 1322822218, 1537002063, 1747873779,
   1955562222, 2024104815, 2227730452, 2361852424,
   2428436474, 2756734187, 3204031479, 3329325298]

/-- Working state: the eight 32-bit hash words. -/
structure Sha256State where
  a : Nat
  b : Nat
  c : Nat
  d : Nat
  e : Nat
  f : Nat
  g : Nat
  h : Nat
  deriving DecidableEq

/-- SHA-256 initial hash value (FIPS 180-4 §5.3.3, decimal numerals). -/
def sha256Init : Sha256State :=
  { a := 1779033703, b := 3144134277, c := 1013904242, d := 2773480762
    e := 1359893119, f := 2600822924, g := 528734635, h := 1541459225 }

/-- Big-endian grouping of bytes into 32-bit words. -/
def bytesToWords : List Nat → List Nat
  | b0 :: b1 :: b2 :: b3 :: rest =>
      (((b0 * 256 + b1) * 256 + b2) * 256 + b3) :: bytesToWords rest
  | _ => []

/-- One step of message-schedule extension.  The schedule is kept in
reverse order (most recent word first). -/
def scheduleExtendOne (rws : List Nat) : List Nat :=
  let w2 := rws.getD 1 0
  let w7 := rws.getD 6 0
  let w15 := rws.getD 14 0
  let w16 := rws.getD 15 0
  ((smallSigma1 w2 + w7 + smallSigma0 w15 + w16) % 4294967296) :: rws

/-- The 64-word message schedule of one 64-byte block. -/
def sha256Schedule (block : List Nat) : List Nat :=
  (scheduleExtendOne^[48] (bytesToWords block).reverse).reverse

/-- One SHA-256 compression round for a (schedule word, constant) pair. -/
def sha256Round (st : Sha256State) (wk : Nat × Nat) : Sha256State :=
  let t1 := (st.h + bigSigma1 st.e + sha256Ch st.e st.f st.g + wk.2 + wk.1) % 4294967296
  let t2 := (bigSigma0 st.a + sha256Maj st.a st.b st.c) % 4294967296
  { a := (t1 + t2) % 4294967296, b := st.a, c := st.b, d := st.c
    e := (st.d + t1) % 4294967296, f := st.e, g := st.f, h := st.g }

/-- Process one 64-byte block: 64 rounds then add to the chaining value. -/
def sha256Block (st : Sha256State) (block : List Nat) : Sha256State :=
  let ws := sha256Schedule block
  let r := (ws.zip sha256K).foldl sha256Round st
  { a := (st.a + r.a) % 4294967296, b := (st.b + r.b) % 4294967296
    c := (st.c + r.c) % 4294967296, d := (st.d + r.d) % 4294967296
    e := (st.e + r.e) % 4294967296, f := (st.f + r.f) % 4294967296
    g := (st.g + r.g) % 4294967296, h := (st.h + r.h) % 4294967296 }

/-- Split a byte list into 64-byte chunks. -/
def chunks64 (bs : List Nat) : List (List Nat) :=
  if h : bs.isEmpty then [] else bs.take 64 :: chunks64 (bs.drop 64)
termination_by bs.length
decreasing_by
  simp only [List.isEmpty_iff] at h
  have hpos : 0 < bs.length := List.length_pos.mpr h
  simp only [List.length_drop]
  omega

/-- Big-endian 8-byte encoding of the message bit length. -/
def lengthBytes (bitLen : Nat) : List Nat :=
  [(bitLen >>> 56) % 256, (bitLen >>> 48) % 256, (bitLen >>> 40) % 256,
   (bitLen >>> 32) % 256, (bitLen >>> 24) % 256, (bitLen >>> 16) % 256,
   (bitLen >>> 8) % 256, bitLen % 256]

/-- SHA-256 padding: a 0x80 byte, zeros to 56 mod 64, then the bit length. -/
def sha256Pad (msg : List Nat) : List Nat :=
  let zeroCount := (119 - msg.length % 64) % 64
  msg ++ (0x80 :: List.replicate zeroCount 0) ++ lengthBytes (msg.length * 8)

/-- Big-endian 4-byte decomposition of one 32-bit word. -/
def wordBytes (w : Nat) : List Nat :=
  [(w >>> 24) % 256, (w >>> 16) % 256, (w >>> 8) % 256, w % 256]

/-- SHA-256 digest of a byte list: 32 bytes. -/
def sha256 (msg : List Nat) : List Nat :=
  let st := (chunks64 (sha256Pad msg)).foldl sha256Block sha256Init
  wordBytes st.a ++ wordBytes st.b ++ wordBytes st.c ++ wordBytes st.d ++
  wordBytes st.e ++ wordBytes st.f ++ wordBytes st.g ++ wordBytes st.h

/-- UTF-8 bytes of a string (`TextEncoder().encode` / node `update`). -/
def utf8Bytes (s : String) : List Nat :=
  s.toUTF8.toList.map (fun b => b.toNat)

/-- Lowercase hex digit for a value below 16
(JavaScript `b.toString(16)` digits). -/
def hexDigit (n : Nat) : Char :=
  if n < 10 then Char.ofNat (48 + n) else Char.ofNat (87 + n)

/-- Two lowercase hex characters for one byte
(`b.toString(16).padStart(2, "0")`). -/
def byteHexChars (b : Nat) : List Char :=
  [hexDigit (b / 16), hexDigit (b % 16)]

/-- Hex encoding of a byte list
(`Array.from(bytes).map(hex).join("")`). -/
def hexEncode (bs : List Nat) : String :=
  String.mk (bs.map byteHexChars).flatten

/-- The function `hashWithPepper(value, pepper)`: SHA-256 over `pepper + value`,
hex-encoded (supabase/functions/_shared/crypto.ts). -/
def hashWithPepper (value pepper : String) : String :=
  hexEncode (sha256 (utf8Bytes (pepper ++ value)))

/-! ### Data model: `cases` and `case_links` rows -/

/-- The response state union of validate_case_access/index.ts. -/
inductive AccessState where
  | success
  | invalid
  | expired
  | revoked
  | locked
  | wrong_passcode
  deriving DecidableEq

/-- A `case_links` row (supabase/migrations, table `case_links`).
`attempt_count` and `view_count` are `NOT NULL DEFAULT 0` in the schema
but the validator reads them defensively as `link.attempt_count || 0`,
modelled here with `Option Nat` and `getD 0`. -/
structure LinkRow where
  id : Nat
  case_id : String
  token_hash : String
  passcode_hash : String
  expires_at : Int
  revoked_at : Option Int
  attempt_count : Option Nat
  locked_until : Option Int
  view_count : Option Nat
  last_viewed_at : Option Int
  deriving DecidableEq

/-- The `cases` columns selected by the validator on success
(`id, company_name, industry, calc_total, calc_er, calc_ee,
calc_inputs, calc_explanation, status`).  The jsonb/text payload
columns are carried opaquely. -/
structure CaseRow where
  id : String
  company_name : String
  industry : String
  calc_total : Nat
  calc_er : Nat
  calc_ee : Nat
  calc_inputs : CalcInputs
  status : String
  deriving DecidableEq

/-! ### Access validator -/

/-- The column assignments of one `case_links` UPDATE issued by the
validator.  A `none` optional field means the column is absent from the
update object and therefore left unchanged. -/
structure LinkWrite where
  attempt_count : Nat
  locked_until : Option Int := none
  view_count : Option Nat := none
  last_viewed_at : Option Int := none
  deriving DecidableEq

/-- Apply an UPDATE to a row (the store-side effect of the write). -/
def LinkRow.applyWrite (l : LinkRow) (w : LinkWrite) : LinkRow :=
  { l with
    attempt_count := some w.attempt_count
    locked_until := match w.locked_until with
      | some t => some t
      | none => l.locked_until
    view_count := match w.view_count with
      | some v => some v
      | none => l.view_count
    last_viewed_at := match w.last_viewed_at with
      | some t => some t
      | none => l.last_viewed_at }

/-- The JSON body produced by `jsonResponse` for a validation request. -/
structure ValidateResponse where
  ok : Bool
  state : AccessState
  remaining_attempts : Option Nat := none
  data : Option CaseRow := none
  locked_until_extra : Option Int := none
  deriving DecidableEq

/-- What the handler does for one looked-up link row: the response it
returns and the `case_links` UPDATE it issues (if any).  The handler
never inspects the outcome of the UPDATE, so the write is recorded
separately from the response. -/
structure ValidateOutcome where
  response : ValidateResponse
  write : Option LinkWrite := none
  deriving DecidableEq

/-- Steps 3–7 of validate_case_access/index.ts, for a link row found by
the token lookup.  `now` is the request timestamp (`new Date()`;
`Date.now()` in the lock computation is modelled as the same instant).
`passcodeHash` is `hashWithPepper(String(passcode), pepper)` and
`caseLookup` is the result of the `cases` fetch of Step 7. -/
def validateLink (link : LinkRow) (now : Int) (passcodeHash : String)
    (caseLookup : Option CaseRow) : ValidateOutcome :=
  -- Step 3: lifecycle checks — revoked, expired, locked
  if link.revoked_at.isSome then
    { response := { ok := false, state := .revoked } }
  else if link.expires_at < now then
    { response := { ok := false, state := .expired } }
  else if link.locked_until.any (fun u => decide (now < u)) then
    { response := { ok := false, state := .locked
                    locked_until_extra := link.locked_until } }
  -- Step 4: compare the passcode hash
  else if passcodeHash = link.passcode_hash then
    -- Step 6: correct — reset attempts, bump view count
    let w : LinkWrite :=
      { attempt_count := 0
        view_count := some (link.view_count.getD 0 + 1)
        last_viewed_at := some now }
    -- Step 7: fetch case data and return payload
    match caseLookup with
    | some caseData =>
        { response := { ok := true, state := .success, data := some caseData }
          write := some w }
    | none =>
        { response := { ok := false, state := .invalid }
          write := some w }
  else
    -- Step 5: wrong passcode — increment attempts, maybe lock
    let newAttemptCount := link.attempt_count.getD 0 + 1
    if SharedConstants.MAX_ATTEMPTS ≤ newAttemptCount then
      { response := { ok := false, state := .locked }
        write := some
          { attempt_count := newAttemptCount
            locked_until :=
              some (now + SharedConstants.LOCK_DURATION_MINUTES * 60 * 1000) } }
    else
      { response := { ok := false, state := .wrong_passcode
                      remaining_attempts :=
                        some (SharedConstants.MAX_ATTEMPTS - newAttemptCount) }
        write := some { attempt_count := newAttemptCount } }

/-- One full request against a single link row together with the store
acknowledgement of the issued UPDATE: `storeAck = false` means the
store rejected (or lost) the write.  The handler discards the result
object of the UPDATE, so the response is computed independently of `storeAck`;
only the resulting row state depends on it. -/
def runValidate (link : LinkRow) (now : Int) (passcodeHash : String)
    (caseLookup : Option CaseRow) (storeAck : Bool) :
    ValidateResponse × LinkRow :=
  let o := validateLink link now passcodeHash caseLookup
  (o.response,
   match o.write with
   | some w => if storeAck then link.applyWrite w else link
   | none => link)

/-- The persisted row after one validation attempt whose write the
store acknowledges (used to chain consecutive attempts). -/
def attemptStep (now : Int) (passcodeHash : String) (cl : Option CaseRow)
    (l : LinkRow) : LinkRow :=
  (runValidate l now passcodeHash cl true).2

/-- Row lookup of Step 2:
`.eq("token_hash", tokenHash).eq("case_id", case_id).maybeSingle()`. -/
def findLink (links : List LinkRow) (caseId tokenHash : String) :
    Option LinkRow :=
  links.find? (fun l => l.token_hash == tokenHash && l.case_id == caseId)

/-- Case lookup `.eq("id", case_id).single()` over the `cases` table. -/
def findCase (cases : List CaseRow) (caseId : String) : Option CaseRow :=
  cases.find? (fun c => c.id == caseId)

/-- The whole validation request over the store: lookup, validation,
and the UPDATE applied to the matching row (`.eq("id", link.id)`) when
the store acknowledges it. -/
def validateRequest (links : List LinkRow) (cases : List CaseRow)
    (caseId tokenHash passcodeHash : String) (now : Int) (storeAck : Bool) :
    ValidateResponse × List LinkRow :=
  match findLink links caseId tokenHash with
  | none => ({ ok := false, state := .invalid }, links)
  | some link =>
      let o := validateLink link now passcodeHash (findCase cases caseId)
      (o.response,
       match o.write with
       | some w =>
           if storeAck then
             links.map (fun l => if l.id == link.id then l.applyWrite w else l)
           else links
       | none => links)

/-! ### Link issuance / rotation (regenerate_link/index.ts) -/

/-- Effect of the revocation UPDATE
(`.update({revoked_at: now}).eq("case_id", case_id).is("revoked_at", null)`)
on one row. -/
def revokeOne (caseId : String) (now : Int) (l : LinkRow) : LinkRow :=
  if l.case_id = caseId ∧ l.revoked_at = none then
    { l with revoked_at := some now }
  else l

/-- The revocation UPDATE over the whole `case_links` table. -/
def revokeExistingLinks (links : List LinkRow) (caseId : String)
    (now : Int) : List LinkRow :=
  links.map (revokeOne caseId now)

/-- The row inserted by regenerate_link (and by the webhook handler):
only `case_id`, `token_hash`, `passcode_hash`, `expires_at` are
supplied; the other columns take the schema defaults
(`attempt_count 0`, `view_count 0`, null lifecycle columns). -/
def insertedLink (id : Nat) (caseId tokenHash passcodeHash : String)
    (now : Int) : LinkRow :=
  { id
    case_id := caseId
    token_hash := tokenHash
    passcode_hash := passcodeHash
    expires_at := now + SharedConstants.LINK_EXPIRY_DAYS * 24 * 60 * 60 * 1000
    revoked_at := none
    attempt_count := some 0
    locked_until := none
    view_count := some 0
    last_viewed_at := none }

/-- The `case_links` table after one issuance for `caseId`: first the
revocation UPDATE of all currently active links of the subject, then
the INSERT of the fresh link. -/
def regenerateLinks (links : List LinkRow) (caseId : String) (now : Int)
    (newLink : LinkRow) : List LinkRow :=
  revokeExistingLinks links caseId now ++ [newLink]

/-- The row inserted by the authenticated /api/generate route
(src/app/api/generate/route.ts): the passcode hash column is the
empty string. -/
def apiGenerateLink (id : Nat) (caseId tokenHash : String)
    (now : Int) : LinkRow :=
  { id
    case_id := caseId
    token_hash := tokenHash
    passcode_hash := ""
    expires_at := now + LibConstants.LINK_EXPIRY_DAYS * 24 * 60 * 60 * 1000
    revoked_at := none
    attempt_count := some 0
    locked_until := none
    view_count := some 0
    last_viewed_at := none }

/-! ### Generation idempotency guard
(generate_case_from_pipedrive/index.ts, Steps 6–11) -/

/-- The columns the idempotency check reads
(`.select("id, last_generated_at")`). -/
structure ExistingCase where
  id : String
  last_generated_at : Option Int
  deriving DecidableEq

/-- The `cases` row upserted in Step 8. -/
structure UpsertCaseRow where
  pipedrive_deal_id : String
  company_name : String
  industry : String
  status : String
  calc_total : Nat
  calc_er : Nat
  calc_ee : Nat
  calc_inputs : CalcInputs
  last_generated_at : Int
  deriving DecidableEq

/-- The `case_links` row inserted in Step 11. -/
structure IssuedLink where
  token_hash : String
  passcode_hash : String
  expires_at : Int
  deriving DecidableEq

/-- Outcome of a generation trigger after the validation of Step 5:
either the idempotency guard skips (no upsert, no calculation, no new
link; the response carries the existing case id), or a case row is
upserted and a fresh link inserted. -/
inductive GenOutcome where
  | skipped (case_id : String)
  | generated (row : UpsertCaseRow) (link : IssuedLink)
  deriving DecidableEq

/-- Steps 6–11 of the webhook handler for a trigger that passed field
validation.  `existing` is the lookup by external key
(`.eq("pipedrive_deal_id", ...).maybeSingle()`); `now` is `Date.now()`.
The raw token/passcode generation is random; their hashes enter as
`tokenHash`/`passcodeHash`. -/
def generateFromPipedrive (existing : Option ExistingCase) (now : Int)
    (dealId companyName industry : String) (w2Count taxYear : Nat)
    (tokenHash passcodeHash : String) : GenOutcome :=
  -- Step 7: calculate values (the inline per-W2 multiplication)
  let c := pipedriveCalc w2Count taxYear
  -- Step 8 upsert row and Step 11 link insert, when not skipped
  let proceed : GenOutcome :=
    .generated
      { pipedrive_deal_id := dealId
        company_name := companyName
        industry := industry
        status := "generated"
        calc_total := c.calc_total
        calc_er := c.calc_er
        calc_ee := c.calc_ee
        calc_inputs := c.calc_inputs
        last_generated_at := now }
      { token_hash := tokenHash
        passcode_hash := passcodeHash
        expires_at :=
          now + SharedConstants.LINK_EXPIRY_DAYS * 24 * 60 * 60 * 1000 }
  -- Step 6: `if (existingCase?.last_generated_at)` then window check
  match existing with
  | some ec =>
      match ec.last_generated_at with
      | some lastGen =>
          if now - lastGen <
              (SharedConstants.IDEMPOTENCY_WINDOW_SECONDS : Int) * 1000 then
            .skipped ec.id
          else proceed
      | none => proceed
  | none => proceed

/-! ### Concrete sample rows (used to instantiate the theorems) -/

/-- A concrete in-lifecycle `case_links` row with the given stored
passcode hash. -/
def sampleLink (passcodeHash : String) : LinkRow :=
  { id := 1
    case_id := "case-1"
    token_hash := "tok-hash"
    passcode_hash := passcodeHash
    expires_at := 1000000
    revoked_at := none
    attempt_count := some 0
    locked_until := none
    view_count := some 0
    last_viewed_at := none }

/-- A concrete `cases` row matching the `case_id` of `sampleLink`. -/
def sampleCase : CaseRow :=
  { id := "case-1"
    company_name := "Acme Corp"
    industry := "Manufacturing"
    calc_total := 67120
    calc_er := 23720
    calc_ee := 43400
    calc_inputs :=
      { w2_count := 20, tax_year := 2025
        rate_total := 3356, rate_er := 1186, rate_ee := 2170 }
    status := "generated" }

/-! ## Theorems -/

/-! ### Hashing facts -/

/-- The digest always has exactly 32 bytes, whatever the message. -/
theorem sha256_length (msg : List Nat) : (sha256 msg).length = 32 := by
  simp [sha256, wordBytes]

/-- Hex encoding yields two characters per byte. -/
theorem hexEncode_length (bs : List Nat) :
    (hexEncode bs).length = 2 * bs.length := by
  simp only [hexEncode, String.length]
  induction bs with
  | nil => rfl
  | cons b rest ih =>
      simp [byteHexChars, List.map_cons, List.flatten, ih]
      omega

/-- The digest string of `hashWithPepper` always has a 64-character digest string. -/
theorem hashWithPepper_length (value pepper : String) :
    (hashWithPepper value pepper).length = 64 := by
  simp [hashWithPepper, hexEncode_length, sha256_length]

/-- In particular the digest string is never the empty string. -/
theorem hashWithPepper_ne_empty (value pepper : String) :
    hashWithPepper value pepper ≠ "" := by
  intro h
  have := hashWithPepper_length value pepper
  rw [h] at this
  simp at this

/-! ### Branch lemmas for the access validator -/

/-- The lock check evaluates false when no future lock is set. -/
theorem lock_check_false {l : LinkRow} {now : Int}
    (h : ∀ u ∈ l.locked_until, u ≤ now) :
    l.locked_until.any (fun u => decide (now < u)) = false := by
  cases hl : l.locked_until with
  | none => rfl
  | some u =>
      simp only [Option.any_some, decide_eq_false_iff_not, not_lt]
      exact h u (by simp [hl])

/-- A revoked row short-circuits to REVOKED with no write. -/
theorem validateLink_revoked (link : LinkRow) (now : Int) (ph : String)
    (cl : Option CaseRow) (hrev : link.revoked_at.isSome = true) :
    validateLink link now ph cl =
      { response := { ok := false, state := .revoked } } := by
  simp [validateLink, hrev]

/-- A non-revoked row past its expiry short-circuits to EXPIRED with no
write. -/
theorem validateLink_expired (link : LinkRow) (now : Int) (ph : String)
    (cl : Option CaseRow) (hrev : link.revoked_at = none)
    (hexp : link.expires_at < now) :
    validateLink link now ph cl =
      { response := { ok := false, state := .expired } } := by
  simp [validateLink, hrev, hexp]

/-- A row locked into the future short-circuits to LOCKED with no
write, whatever the supplied passcode hash. -/
theorem validateLink_locked (link : LinkRow) (now : Int) (ph : String)
    (cl : Option CaseRow) (u : Int) (hrev : link.revoked_at = none)
    (hexp : ¬ link.expires_at < now) (hu : link.locked_until = some u)
    (hnow : now < u) :
    validateLink link now ph cl =
      { response := { ok := false, state := .locked
                      locked_until_extra := some u } } := by
  simp [validateLink, hrev, hexp, hu, hnow]

/-- The matching-passcode branch: reset counter, bump view count,
return the case payload. -/
theorem validateLink_correct (link : LinkRow) (now : Int) (ph : String)
    (caseData : CaseRow) (hrev : link.revoked_at = none)
    (hexp : ¬ link.expires_at < now)
    (hlk : ∀ u ∈ link.locked_until, u ≤ now)
    (hph : ph = link.passcode_hash) :
    validateLink link now ph (some caseData) =
      { response := { ok := true, state := .success, data := some caseData }
        write := some { attempt_count := 0
                        view_count := some (link.view_count.getD 0 + 1)
                        last_viewed_at := some now } } := by
  simp [validateLink, hrev, hexp, hph, lock_check_false hlk]

/-- The mismatching-passcode branch: increment the counter and either
lock (counter at the maximum) or report the remaining attempts. -/
theorem validateLink_wrong (link : LinkRow) (now : Int) (ph : String)
    (cl : Option CaseRow) (hrev : link.revoked_at = none)
    (hexp : ¬ link.expires_at < now)
    (hlk : ∀ u ∈ link.locked_until, u ≤ now)
    (hwrong : ph ≠ link.passcode_hash) :
    validateLink link now ph cl =
      if SharedConstants.MAX_ATTEMPTS ≤ link.attempt_count.getD 0 + 1 then
        { response := { ok := false, state := .locked }
          write := some
            { attempt_count := link.attempt_count.getD 0 + 1
              locked_until :=
                some (now + SharedConstants.LOCK_DURATION_MINUTES * 60 * 1000) } }
      else
        { response := { ok := false, state := .wrong_passcode
                        remaining_attempts :=
                          some (SharedConstants.MAX_ATTEMPTS
                                  - (link.attempt_count.getD 0 + 1)) }
          write := some { attempt_count := link.attempt_count.getD 0 + 1 } } := by
  simp [validateLink, hrev, hexp, hwrong, lock_check_false hlk]

/-- After `i ≤ 9` acknowledged wrong attempts against a fresh link, the
stored row differs from the original only in `attempt_count = i`. -/
theorem attemptStep_iterate (link : LinkRow) (now : Int) (ph : String)
    (cl : Option CaseRow) (hrev : link.revoked_at = none)
    (hexp : ¬ link.expires_at < now) (hlkn : link.locked_until = none)
    (hac : link.attempt_count = some 0) (hwrong : ph ≠ link.passcode_hash) :
    ∀ i, i ≤ 9 →
      (attemptStep now ph cl)^[i] link = { link with attempt_count := some i } := by
  intro i
  induction i with
  | zero =>
      intro _
      cases link
      simp_all
  | succ k ih =>
      intro hk
      rw [Function.iterate_succ_apply', ih (by omega)]
      have e := validateLink_wrong { link with attempt_count := some k } now ph cl
        (by simpa using hrev) (by simpa using hexp) (by simp [hlkn])
        (by simpa using hwrong)
      have hlt : ¬ SharedConstants.MAX_ATTEMPTS
          ≤ ({ link with attempt_count := some k } : LinkRow).attempt_count.getD 0 + 1 := by
        simp [SharedConstants.MAX_ATTEMPTS]
        omega
      rw [if_neg hlt] at e
      simp [attemptStep, runValidate, e, LinkRow.applyWrite]

/-! ### List lookup helper lemmas -/

/-- A `find?` call returns the unique member satisfying the predicate. -/
theorem find_eq_of_mem_unique {α : Type} (p : α → Bool) :
    ∀ (xs : List α) (a : α), a ∈ xs → p a = true →
      (∀ b ∈ xs, p b = true → b = a) → xs.find? p = some a := by
  intro xs
  induction xs with
  | nil =>
      intro a ha _ _
      cases ha
  | cons x rest ih =>
      intro a ha hpa huniq
      by_cases hx : p x = true
      · have hxa : x = a := huniq x (List.mem_cons_self x rest) hx
        rw [List.find?_cons_of_pos _ hx, hxa]
      · have hax : a ∈ rest := by
          rcases List.mem_cons.mp ha with h1 | h1
          · exact absurd (h1 ▸ hpa) hx
          · exact h1
        rw [List.find?_cons_of_neg _ hx]
        exact ih a hax hpa (fun b hb hpb => huniq b (List.mem_cons_of_mem _ hb) hpb)

/-- Revocation never changes the token hash. -/
theorem revokeOne_token_hash (caseId : String) (now : Int) (l : LinkRow) :
    (revokeOne caseId now l).token_hash = l.token_hash := by
  unfold revokeOne
  split <;> rfl

/-- Revocation never changes the case id. -/
theorem revokeOne_case_id (caseId : String) (now : Int) (l : LinkRow) :
    (revokeOne caseId now l).case_id = l.case_id := by
  unfold revokeOne
  split <;> rfl

/-! ### Claim C9 — savings split and rate invariant -/

/-- Claim C9: for every positive integer n,
`calculateSavings(n).calc_total = calc_er + calc_ee`, and the
configured lib rates satisfy `RATE_TOTAL = RATE_ER + RATE_EE` exactly. -/
theorem claim_C9_calc_total_split (n : Nat) (hn : 0 < n) (y : Nat) :
    (calculateSavings n y).calc_total
        = (calculateSavings n y).calc_er + (calculateSavings n y).calc_ee
      ∧ LibConstants.RATE_TOTAL = LibConstants.RATE_ER + LibConstants.RATE_EE := by
  refine ⟨?_, by decide⟩
  show n * LibConstants.RATE_TOTAL
      = n * LibConstants.RATE_ER + n * LibConstants.RATE_EE
  simp only [LibConstants.RATE_TOTAL, LibConstants.RATE_ER, LibConstants.RATE_EE]
  omega

/-- Witness for claim C9 at n = 20 (the scenario input given in the spec). -/
theorem claim_C9_witness :
    (0 : Nat) < 20 ∧
      ((calculateSavings 20 2025).calc_total
          = (calculateSavings 20 2025).calc_er + (calculateSavings 20 2025).calc_ee
        ∧ LibConstants.RATE_TOTAL = LibConstants.RATE_ER + LibConstants.RATE_EE) :=
  ⟨by decide, claim_C9_calc_total_split 20 (by decide) 2025⟩

/-! ### Claim C5 — the two calculation paths -/

/-- Claim C5 (divergence): at w2_count = 20 the upstream Pipedrive
webhook path computes calc_total = 67140 and calc_er = 23740 (shared
edge constants 3357/1187) while the authenticated path via
`calculateSavings` computes 67120 and 23720 (lib constants 3356/1186):
the two implementations do not agree. -/
theorem claim_C5_paths_disagree :
    (pipedriveCalc 20 2025).calc_total = 67140 ∧
    (pipedriveCalc 20 2025).calc_er = 23740 ∧
    (pipedriveCalc 20 2025).calc_ee = 43400 ∧
    (calculateSavings 20 2025).calc_total = 67120 ∧
    (calculateSavings 20 2025).calc_er = 23720 ∧
    (calculateSavings 20 2025).calc_ee = 43400 ∧
    (pipedriveCalc 20 2025).calc_total ≠ (calculateSavings 20 2025).calc_total ∧
    (pipedriveCalc 20 2025).calc_er ≠ (calculateSavings 20 2025).calc_er := by
  decide

/-! ### Claim C8 — generation idempotency guard -/

/-- Claim C8: when a case already exists for the external key of the trigger
and its `last_generated_at` is within 60 seconds of now, the handler
performs no upsert, computes no calculation, and issues no link — it
returns the skipped no-op outcome referencing the existing case id. -/
theorem claim_C8_idempotency_guard
    (ec : ExistingCase) (now lastGen : Int)
    (dealId companyName industry : String) (w2 ty : Nat) (th ph : String)
    (hlg : ec.last_generated_at = some lastGen)
    (hwin : |now - lastGen| < 60000) :
    generateFromPipedrive (some ec) now dealId companyName industry w2 ty th ph
      = .skipped ec.id := by
  have hlt : now - lastGen
      < (SharedConstants.IDEMPOTENCY_WINDOW_SECONDS : Int) * 1000 := by
    have h := abs_lt.mp hwin
    simp only [SharedConstants.IDEMPOTENCY_WINDOW_SECONDS]
    omega
  simp [generateFromPipedrive, hlg, hlt]

/-- Witness for claim C8: a second trigger 30 seconds after the first. -/
theorem claim_C8_witness :
    ({ id := "case-1", last_generated_at := some 100000 }
        : ExistingCase).last_generated_at = some 100000 ∧
    |(130000 : Int) - 100000| < 60000 ∧
    generateFromPipedrive (some { id := "case-1", last_generated_at := some 100000 })
        130000 "90724" "Acme Corp" "Manufacturing" 20 2025 "th" "ph"
      = .skipped "case-1" :=
  ⟨rfl, by decide,
    claim_C8_idempotency_guard _ 130000 100000 "90724" "Acme Corp"
      "Manufacturing" 20 2025 "th" "ph" rfl (by decide)⟩

/-! ### Claim C1 — wrong-passcode counting and lockout -/

/-- Claim C1: on a found, non-revoked, non-expired, non-locked link, a
passcode whose hash differs from the stored hash increments
attempt_count by exactly 1; reaching the maximum of 10 sets
locked_until = now + 30 minutes and reports LOCKED, otherwise
WRONG_PASSCODE with remaining = 10 - newCount; and ten consecutive
wrong passcodes against a fresh link lock on the tenth attempt and no
earlier. -/
theorem claim_C1_wrong_passcode_lockout :
    SharedConstants.MAX_ATTEMPTS = 10 ∧
    SharedConstants.LOCK_DURATION_MINUTES = 30 ∧
    (∀ (link : LinkRow) (now : Int) (passcode pepper : String)
        (cl : Option CaseRow),
      link.revoked_at = none → ¬ link.expires_at < now →
      (∀ u ∈ link.locked_until, u ≤ now) →
      hashWithPepper passcode pepper ≠ link.passcode_hash →
      (SharedConstants.MAX_ATTEMPTS ≤ link.attempt_count.getD 0 + 1 →
        (validateLink link now (hashWithPepper passcode pepper) cl).response.state
            = .locked ∧
        (validateLink link now (hashWithPepper passcode pepper) cl).write
            = some { attempt_count := link.attempt_count.getD 0 + 1
                     locked_until := some
                       (now + SharedConstants.LOCK_DURATION_MINUTES * 60 * 1000) }) ∧
      (link.attempt_count.getD 0 + 1 < SharedConstants.MAX_ATTEMPTS →
        (validateLink link now (hashWithPepper passcode pepper) cl).response.state
            = .wrong_passcode ∧
        (validateLink link now (hashWithPepper passcode pepper) cl).response.remaining_attempts
            = some (SharedConstants.MAX_ATTEMPTS - (link.attempt_count.getD 0 + 1)) ∧
        (validateLink link now (hashWithPepper passcode pepper) cl).write
            = some { attempt_count := link.attempt_count.getD 0 + 1 })) ∧
    (∀ (link : LinkRow) (now : Int) (passcode pepper : String)
        (cl : Option CaseRow),
      link.revoked_at = none → ¬ link.expires_at < now →
      link.locked_until = none → link.attempt_count = some 0 →
      hashWithPepper passcode pepper ≠ link.passcode_hash →
      (∀ i, i ≤ 9 →
        ((attemptStep now (hashWithPepper passcode pepper) cl)^[i] link).locked_until
          = none) ∧
      (∀ i, i < 9 →
        (validateLink
            ((attemptStep now (hashWithPepper passcode pepper) cl)^[i] link)
            now (hashWithPepper passcode pepper) cl).response.state
          = .wrong_passcode ∧
        (validateLink
            ((attemptStep now (hashWithPepper passcode pepper) cl)^[i] link)
            now (hashWithPepper passcode pepper) cl).response.remaining_attempts
          = some (9 - i)) ∧
      (validateLink
          ((attemptStep now (hashWithPepper passcode pepper) cl)^[9] link)
          now (hashWithPepper passcode pepper) cl).response.state = .locked ∧
      ((attemptStep now (hashWithPepper passcode pepper) cl)^[10] link).locked_until
        = some (now + SharedConstants.LOCK_DURATION_MINUTES * 60 * 1000)) := by
  refine ⟨rfl, rfl, ?_, ?_⟩
  · intro link now passcode pepper cl hrev hexp hlk hwrong
    have e := validateLink_wrong link now (hashWithPepper passcode pepper) cl
      hrev hexp hlk hwrong
    constructor
    · intro h10
      rw [if_pos h10] at e
      exact ⟨by simp [e], by simp [e]⟩
    · intro hlt
      rw [if_neg (not_le.mpr hlt)] at e
      exact ⟨by simp [e], by simp [e], by simp [e]⟩
  · intro link now passcode pepper cl hrev hexp hlkn hac hwrong
    have hiter := attemptStep_iterate link now (hashWithPepper passcode pepper)
      cl hrev hexp hlkn hac hwrong
    refine ⟨?_, ?_, ?_, ?_⟩
    · intro i hi
      rw [hiter i hi]
      simpa using hlkn
    · intro i hi
      rw [hiter i (by omega)]
      have e := validateLink_wrong { link with attempt_count := some i } now
        (hashWithPepper passcode pepper) cl (by simpa using hrev)
        (by simpa using hexp) (by simp [hlkn]) (by simpa using hwrong)
      rw [if_neg (by simp [SharedConstants.MAX_ATTEMPTS]; omega)] at e
      exact ⟨by simp [e], by simp [e, SharedConstants.MAX_ATTEMPTS]⟩
    · rw [hiter 9 (by omega)]
      have e := validateLink_wrong { link with attempt_count := some 9 } now
        (hashWithPepper passcode pepper) cl (by simpa using hrev)
        (by simpa using hexp) (by simp [hlkn]) (by simpa using hwrong)
      rw [if_pos (by simp [SharedConstants.MAX_ATTEMPTS])] at e
      simp [e]
    · rw [show (10 : Nat) = 9 + 1 from rfl, Function.iterate_succ_apply',
          hiter 9 (by omega)]
      have e := validateLink_wrong { link with attempt_count := some 9 } now
        (hashWithPepper passcode pepper) cl (by simpa using hrev)
        (by simpa using hexp) (by simp [hlkn]) (by simpa using hwrong)
      rw [if_pos (by simp [SharedConstants.MAX_ATTEMPTS])] at e
      simp [attemptStep, runValidate, e, LinkRow.applyWrite]

/-- Witness for claim C1: a first wrong passcode against a fresh link
whose stored passcode hash is the empty string. -/
theorem claim_C1_witness :
    (sampleLink "").revoked_at = none ∧
    ¬ (sampleLink "").expires_at < 0 ∧
    hashWithPepper "123456" "pep" ≠ (sampleLink "").passcode_hash ∧
    (validateLink (sampleLink "") 0 (hashWithPepper "123456" "pep") none).response.state
        = .wrong_passcode ∧
    (validateLink (sampleLink "") 0 (hashWithPepper "123456" "pep") none).response.remaining_attempts
        = some 9 ∧
    (validateLink (sampleLink "") 0 (hashWithPepper "123456" "pep") none).write
        = some { attempt_count := 1 } :=
  have hw : hashWithPepper "123456" "pep" ≠ (sampleLink "").passcode_hash :=
    hashWithPepper_ne_empty "123456" "pep"
  have h := (claim_C1_wrong_passcode_lockout.2.2.1 (sampleLink "") 0 "123456"
      "pep" none rfl (by decide) (by simp [sampleLink]) hw).2 (by decide)
  ⟨rfl, by decide, hw, h.1, h.2.1, h.2.2⟩

/-! ### Claim C2 — lock takes precedence, no mutation -/

/-- Claim C2: against a link whose locked_until is set and strictly in
the future, the validator reports LOCKED before any passcode comparison
(the response does not depend on the supplied hash, even a correct
one), issues no write, and leaves the row unchanged: attempts made
while locked do not increment attempt_count. -/
theorem claim_C2_locked_precedence
    (link : LinkRow) (now : Int) (cl : Option CaseRow) (u : Int)
    (hrev : link.revoked_at = none) (hexp : ¬ link.expires_at < now)
    (hu : link.locked_until = some u) (hnow : now < u) :
    (∀ ph : String,
        (validateLink link now ph cl).response.state = .locked ∧
        (validateLink link now ph cl).write = none) ∧
    (∀ ph1 ph2 : String,
        validateLink link now ph1 cl = validateLink link now ph2 cl) ∧
    (∀ (ph : String) (ack : Bool), (runValidate link now ph cl ack).2 = link) := by
  have e : ∀ ph : String, validateLink link now ph cl =
      { response := { ok := false, state := .locked
                      locked_until_extra := some u } } :=
    fun ph => validateLink_locked link now ph cl u hrev hexp hu hnow
  exact ⟨fun ph => ⟨by simp [e ph], by simp [e ph]⟩,
         fun p1 p2 => by rw [e p1, e p2],
         fun ph ack => by simp [runValidate, e ph]⟩

/-- Witness for claim C2: a locked link presented with the correct
stored passcode hash still reports LOCKED and is not mutated. -/
theorem claim_C2_witness :
    ({ sampleLink "h" with locked_until := some 500 } : LinkRow).locked_until
        = some 500 ∧
    (100 : Int) < 500 ∧
    (validateLink { sampleLink "h" with locked_until := some 500 } 100 "h"
        none).response.state = .locked ∧
    (validateLink { sampleLink "h" with locked_until := some 500 } 100 "h"
        none).write = none ∧
    (runValidate { sampleLink "h" with locked_until := some 500 } 100 "h"
        none true).2 = { sampleLink "h" with locked_until := some 500 } :=
  have h := claim_C2_locked_precedence
    { sampleLink "h" with locked_until := some 500 } 100 none 500 rfl
    (by decide) rfl (by decide)
  ⟨rfl, by decide, (h.1 "h").1, (h.1 "h").2, h.2.2 "h" true⟩

/-! ### Claim C3 — success path updates -/

/-- Claim C3: on a found, non-revoked, non-expired, non-locked link,
a passcode hashing to the stored hash yields SUCCESS with the
calculation fields of the case, resets attempt_count to 0, increments view_count
by exactly 1 and sets last_viewed_at to now. -/
theorem claim_C3_success_updates
    (link : LinkRow) (now : Int) (passcode pepper : String) (caseData : CaseRow)
    (hrev : link.revoked_at = none) (hexp : ¬ link.expires_at < now)
    (hlk : ∀ u ∈ link.locked_until, u ≤ now)
    (hph : hashWithPepper passcode pepper = link.passcode_hash) :
    (validateLink link now (hashWithPepper passcode pepper)
        (some caseData)).response
      = { ok := true, state := .success, data := some caseData } ∧
    (runValidate link now (hashWithPepper passcode pepper)
        (some caseData) true).2
      = { link with attempt_count := some 0
                    view_count := some (link.view_count.getD 0 + 1)
                    last_viewed_at := some now } := by
  have e := validateLink_correct link now (hashWithPepper passcode pepper)
    caseData hrev hexp hlk hph
  exact ⟨by simp [e], by simp [runValidate, e, LinkRow.applyWrite]⟩

/-- Witness for claim C3: a correct passcode against a fresh sample
link returns the sample case and bumps the counters. -/
theorem claim_C3_witness :
    (sampleLink (hashWithPepper "123456" "pep")).revoked_at = none ∧
    hashWithPepper "123456" "pep"
        = (sampleLink (hashWithPepper "123456" "pep")).passcode_hash ∧
    (validateLink (sampleLink (hashWithPepper "123456" "pep")) 5
        (hashWithPepper "123456" "pep") (some sampleCase)).response
      = { ok := true, state := .success, data := some sampleCase } ∧
    (runValidate (sampleLink (hashWithPepper "123456" "pep")) 5
        (hashWithPepper "123456" "pep") (some sampleCase) true).2
      = { sampleLink (hashWithPepper "123456" "pep") with
            attempt_count := some 0
            view_count := some 1
            last_viewed_at := some 5 } :=
  have h := claim_C3_success_updates (sampleLink (hashWithPepper "123456" "pep"))
    5 "123456" "pep" sampleCase rfl (by decide) (by simp [sampleLink]) rfl
  ⟨rfl, rfl, h.1, h.2⟩

/-! ### Claim C4 — terminal states mutate nothing -/

/-- Claim C4: a revoked link always reports REVOKED regardless of the
passcode; a non-revoked expired link always reports EXPIRED; and in the
NOT_FOUND, REVOKED and EXPIRED cases no link row is mutated. -/
theorem claim_C4_terminal_no_mutation :
    (∀ (link : LinkRow) (now : Int) (ph : String) (cl : Option CaseRow)
        (ack : Bool),
      link.revoked_at.isSome = true →
      (validateLink link now ph cl).response.state = .revoked ∧
      (validateLink link now ph cl).write = none ∧
      (runValidate link now ph cl ack).2 = link) ∧
    (∀ (link : LinkRow) (now : Int) (ph : String) (cl : Option CaseRow)
        (ack : Bool),
      link.revoked_at = none → link.expires_at < now →
      (validateLink link now ph cl).response.state = .expired ∧
      (validateLink link now ph cl).write = none ∧
      (runValidate link now ph cl ack).2 = link) ∧
    (∀ (links : List LinkRow) (cases : List CaseRow) (caseId th ph : String)
        (now : Int) (ack : Bool),
      findLink links caseId th = none →
      validateRequest links cases caseId th ph now ack
        = ({ ok := false, state := .invalid }, links)) := by
  refine ⟨?_, ?_, ?_⟩
  · intro link now ph cl ack hrev
    have e := validateLink_revoked link now ph cl hrev
    exact ⟨by simp [e], by simp [e], by simp [runValidate, e]⟩
  · intro link now ph cl ack hrev hexp
    have e := validateLink_expired link now ph cl hrev hexp
    exact ⟨by simp [e], by simp [e], by simp [runValidate, e]⟩
  · intro links cases caseId th ph now ack hnf
    simp [validateRequest, hnf]

/-- Witness for claim C4: a revoked sample link presented with its
correct passcode hash still reports REVOKED, with no mutation. -/
theorem claim_C4_witness :
    ({ sampleLink "h" with revoked_at := some 42 } : LinkRow).revoked_at.isSome
        = true ∧
    (validateLink { sampleLink "h" with revoked_at := some 42 } 0 "h"
        none).response.state = .revoked ∧
    (validateLink { sampleLink "h" with revoked_at := some 42 } 0 "h"
        none).write = none ∧
    (runValidate { sampleLink "h" with revoked_at := some 42 } 0 "h"
        none true).2 = { sampleLink "h" with revoked_at := some 42 } :=
  have h := claim_C4_terminal_no_mutation.1
    { sampleLink "h" with revoked_at := some 42 } 0 "h" none true rfl
  ⟨rfl, h.1, h.2.1, h.2.2⟩

/-! ### Claim C6 — unconfirmed attempt writes -/

/-- Claim C6 (divergence): the response of the validator is computed
without inspecting the acknowledgement by the store of the attempt-recording UPDATE,
and when the store rejects that write it still reports WRONG_PASSCODE
(here with remaining_attempts 9) while the row — hence attempt_count —
is unchanged: the attempt was never recorded. -/
theorem claim_C6_unconfirmed_write_still_wrong_passcode :
    (∀ (link : LinkRow) (now : Int) (ph : String) (cl : Option CaseRow),
        (runValidate link now ph cl true).1 = (runValidate link now ph cl false).1) ∧
    (runValidate (sampleLink "stored") 0 "supplied" none false).1.state
        = .wrong_passcode ∧
    (runValidate (sampleLink "stored") 0 "supplied" none false).1.remaining_attempts
        = some 9 ∧
    (runValidate (sampleLink "stored") 0 "supplied" none false).2
        = sampleLink "stored" :=
  ⟨fun _ _ _ _ => rfl, by decide, by decide, by decide⟩

/-! ### Claim C10 — empty stored passcode hash -/

/-- Claim C10: for a link whose stored passcode_hash is the empty
string (as inserted by /api/generate), no supplied passcode can
succeed: hashWithPepper always yields a 64-character digest, never the
empty string, so every in-lifecycle attempt reports WRONG_PASSCODE or
LOCKED. -/
theorem claim_C10_empty_hash_never_success
    (link : LinkRow) (now : Int) (passcode pepper : String)
    (cl : Option CaseRow) (hempty : link.passcode_hash = "")
    (hrev : link.revoked_at = none) (hexp : ¬ link.expires_at < now) :
    (validateLink link now (hashWithPepper passcode pepper) cl).response.state
        ≠ .success ∧
    ((validateLink link now (hashWithPepper passcode pepper) cl).response.state
        = .wrong_passcode ∨
     (validateLink link now (hashWithPepper passcode pepper) cl).response.state
        = .locked) := by
  have hwrong : hashWithPepper passcode pepper ≠ link.passcode_hash := by
    rw [hempty]
    exact hashWithPepper_ne_empty passcode pepper
  by_cases hl : ∀ u ∈ link.locked_until, u ≤ now
  · have e := validateLink_wrong link now (hashWithPepper passcode pepper) cl
      hrev hexp hl hwrong
    by_cases h10 : SharedConstants.MAX_ATTEMPTS ≤ link.attempt_count.getD 0 + 1
    · rw [if_pos h10] at e
      exact ⟨by simp [e], Or.inr (by simp [e])⟩
    · rw [if_neg h10] at e
      exact ⟨by simp [e], Or.inl (by simp [e])⟩
  · push_neg at hl
    obtain ⟨u, hu, hnu⟩ := hl
    have e := validateLink_locked link now (hashWithPepper passcode pepper) cl u
      hrev hexp (Option.mem_def.mp hu) hnu
    exact ⟨by simp [e], Or.inr (by simp [e])⟩

/-- Witness for claim C10: the row inserted by /api/generate, with any
six-digit passcode. -/
theorem claim_C10_witness :
    (apiGenerateLink 1 "case-1" "tok" 0).passcode_hash = "" ∧
    (apiGenerateLink 1 "case-1" "tok" 0).revoked_at = none ∧
    ¬ (apiGenerateLink 1 "case-1" "tok" 0).expires_at < 5 ∧
    ((validateLink (apiGenerateLink 1 "case-1" "tok" 0) 5
        (hashWithPepper "123456" "pep") none).response.state ≠ .success ∧
     ((validateLink (apiGenerateLink 1 "case-1" "tok" 0) 5
        (hashWithPepper "123456" "pep") none).response.state = .wrong_passcode ∨
      (validateLink (apiGenerateLink 1 "case-1" "tok" 0) 5
        (hashWithPepper "123456" "pep") none).response.state = .locked)) :=
  ⟨rfl, rfl, by decide,
    claim_C10_empty_hash_never_success (apiGenerateLink 1 "case-1" "tok" 0) 5
      "123456" "pep" none rfl rfl (by decide)⟩

/-! ### Claim C7 — issuance revokes predecessors -/

/-- Claim C7: issuing a new link for a subject marks every currently
non-revoked link of that subject as revoked (revoked_at = now) before
inserting the new link, and a subsequent verification of such a
previously active link reports REVOKED. -/
theorem claim_C7_regenerate_revokes
    (links : List LinkRow) (cases : List CaseRow) (caseId : String) (now : Int)
    (newLink l : LinkRow) (hl : l ∈ links) (hcid : l.case_id = caseId)
    (hact : l.revoked_at = none)
    (huniq : ∀ l2 ∈ links,
        l2.token_hash = l.token_hash → l2.case_id = caseId → l2 = l) :
    ({ l with revoked_at := some now } : LinkRow)
        ∈ regenerateLinks links caseId now newLink ∧
    ∀ (ph : String) (t : Int) (ack : Bool),
      (validateRequest (regenerateLinks links caseId now newLink) cases
          caseId l.token_hash ph t ack).1.state = .revoked := by
  have himg : revokeOne caseId now l = { l with revoked_at := some now } := by
    simp [revokeOne, hcid, hact]
  have hfind : (revokeExistingLinks links caseId now).find?
      (fun l2 => l2.token_hash == l.token_hash && l2.case_id == caseId)
      = some { l with revoked_at := some now } := by
    apply find_eq_of_mem_unique
    · rw [← himg]
      exact List.mem_map_of_mem _ hl
    · simp [hcid]
    · intro b hb hpb
      obtain ⟨l2, hl2, rfl⟩ := List.mem_map.mp hb
      rw [Bool.and_eq_true, beq_iff_eq, beq_iff_eq, revokeOne_token_hash,
          revokeOne_case_id] at hpb
      rw [huniq l2 hl2 hpb.1 hpb.2]
      exact himg
  have hfind2 : findLink (regenerateLinks links caseId now newLink) caseId
      l.token_hash = some { l with revoked_at := some now } := by
    unfold findLink regenerateLinks
    rw [List.find?_append, hfind]
    rfl
  constructor
  · unfold regenerateLinks
    refine List.mem_append_left _ ?_
    rw [← himg]
    exact List.mem_map_of_mem _ hl
  · intro ph t ack
    have e := validateLink_revoked { l with revoked_at := some now } t ph
      (findCase cases caseId) (by simp)
    simp [validateRequest, hfind2, e]

/-- Witness for claim C7: rotating the single active sample-subject
link makes its verification report REVOKED. -/
theorem claim_C7_witness :
    sampleLink "h" ∈ [sampleLink "h"] ∧
    (sampleLink "h").case_id = "case-1" ∧
    (sampleLink "h").revoked_at = none ∧
    ({ sampleLink "h" with revoked_at := some 77 } : LinkRow)
        ∈ regenerateLinks [sampleLink "h"] "case-1" 77
            (insertedLink 2 "case-1" "tok2" "ph2" 77) ∧
    (validateRequest
        (regenerateLinks [sampleLink "h"] "case-1" 77
          (insertedLink 2 "case-1" "tok2" "ph2" 77))
        [] "case-1" (sampleLink "h").token_hash "h" 99 true).1.state
      = .revoked :=
  have h := claim_C7_regenerate_revokes [sampleLink "h"] [] "case-1" 77
    (insertedLink 2 "case-1" "tok2" "ph2" 77) (sampleLink "h")
    (List.mem_singleton.mpr rfl) rfl rfl
    (fun l2 h2 _ _ => List.mem_singleton.mp h2)
  ⟨List.mem_singleton.mpr rfl, rfl, rfl, h.1, h.2 "h" 99 true⟩

end QuickW2
